import Mathlib

/-!
Verification development for the KV Garage client-side commerce subsystem:
the persistent cart store (`global-cart` / `GlobalCart`), the resilient
data loader (`pack-loader.js` / `PackLoader`), the payment orchestrators
(`stripe-payment.js` / `StripePayment` and `cart-stripe-payment.js` /
`CartStripePayment`) and the session manager (`auth-service` /
`AuthService`).

The JavaScript is embedded shallowly: each method becomes a pure Lean
function over an explicit state, with the remote collaborators (fetch,
the payment gateway, the key-value store write) passed in as oracle
arguments of `Except`-like types, mirroring exactly which exceptions the
source catches and which it lets escape.
-/

/-! ### A small model of JavaScript runtime values

Cart snapshots come back from `JSON.parse`, so a stored item's fields can
hold values of the wrong type.  `JSNum` models a JavaScript number
(finite numbers are modelled as rationals, which is faithful for every
comparison and increment the embedded code performs); `JSField` models a
field of a parsed object: absent (`undefined`), `null`, a string, a
number or a boolean.  String-to-number coercion inside comparisons is not
exercised by any embedded code path and is not modelled. -/

inductive JSNum where
  | nan
  | posInf
  | negInf
  | fin (q : ℚ)
deriving DecidableEq, Repr

inductive JSField where
  | missing
  | null
  | str (s : String)
  | num (n : JSNum)
  | boolean (b : Bool)
deriving DecidableEq, Repr

/-- Truthiness of a `JSField`, as JavaScript evaluates it in a boolean
context: `undefined`, `null`, the empty string, `0` and `NaN` are falsy. -/
def JSField.truthy : JSField → Bool
  | .missing => false
  | .null => false
  | .str s => s ≠ ""
  | .num .nan => false
  | .num (.fin q) => q ≠ 0
  | .num _ => true
  | .boolean b => b

/-- The check `typeof x === 'number'` on a field. -/
def JSField.isNumber : JSField → Bool
  | .num _ => true
  | _ => false

/-- The check `isNaN(x)` on a field already known to be a number. -/
def JSField.isNaNnum : JSField → Bool
  | .num .nan => true
  | _ => false

/-- Embeds an optional dataset attribute (`undefined` when the attribute
is missing) as a `JSField`. -/
def optField : Option String → JSField
  | none => .missing
  | some s => .str s

/-! ### Cart store (`GlobalCart`)

A stored cart entry after `JSON.parse`.  `quantity` is `none` when the
field is absent and otherwise a JavaScript number: the snapshots this
component itself writes always store numbers there. -/

structure StoredItem where
  id : JSField
  name : JSField
  price : JSField
  image : JSField
  slug : JSField
  quantity : Option JSNum
deriving DecidableEq, Repr

/-- The JavaScript comparison `quantity > 0`: `undefined` and `NaN`
compare false, `Infinity > 0` is true. -/
def qtyGtZero : Option JSNum → Bool
  | none => false
  | some .nan => false
  | some .posInf => true
  | some .negInf => false
  | some (.fin q) => q > 0

/-- The validity test of `GlobalCart.cleanupCorruptedItems`:
`item && item.id && item.name && typeof item.price === 'number' &&
!isNaN(item.price) && item.quantity > 0`.  A `none` entry models a
`null`/`undefined` element of the parsed array.  Note the source does
NOT require the price to be non-negative or finite. -/
def isValidItem : Option StoredItem → Bool
  | none => false
  | some it =>
      it.id.truthy && it.name.truthy && it.price.isNumber &&
      !it.price.isNaNnum && qtyGtZero it.quantity

/-- `GlobalCart.cleanupCorruptedItems`: keeps exactly the entries passing
`isValidItem` (in order); the re-persist side effect on drop is handled
by the callers' state-level wrappers. -/
def cleanupCorruptedItems (cart : List (Option StoredItem)) : List StoredItem :=
  cart.filterMap (fun o => if isValidItem o then o else none)

/-- `GlobalCart.loadCart`: parses the persisted snapshot and cleans it;
a parse failure (the `catch`) yields the empty cart. -/
def loadCart (raw : Except Unit (List (Option StoredItem))) : List StoredItem :=
  match raw with
  | .ok l => cleanupCorruptedItems l
  | .error _ => []

/-- The data carried by an add-to-cart button: the `data-*` attributes
(`undefined` when missing) with `packPrice` already passed through
`parseFloat`, whose result is always a JavaScript number (possibly `NaN`
or infinite; `parseFloat` of a missing attribute is `NaN`). -/
structure RawButton where
  packId : Option String
  packName : Option String
  packPrice : JSNum
  packImage : Option String
  packSlug : Option String
deriving DecidableEq, Repr

/-- The JavaScript increment `existingItem.quantity += 1`. -/
def qtyPlusOne : Option JSNum → Option JSNum
  | none => some .nan
  | some .nan => some .nan
  | some .posInf => some .posInf
  | some .negInf => some .negInf
  | some (.fin q) => some (.fin (q + 1))

/-- The new cart entry `GlobalCart.addToCart` pushes for a first-time id. -/
def newCartItem (pid pname : String) (price : JSNum)
    (image slug : Option String) : StoredItem :=
  { id := .str pid, name := .str pname, price := .num price,
    image := optField image, slug := optField slug,
    quantity := some (.fin 1) }

/-- In-place increment of the first entry whose `id` strictly equals the
string `pid` (the source's `this.cart.find(item => item.id === packId)`
followed by `existingItem.quantity += 1`). -/
def incFirst (cart : List StoredItem) (pid : String) : List StoredItem :=
  match cart with
  | [] => []
  | it :: rest =>
      if it.id = .str pid then { it with quantity := qtyPlusOne it.quantity } :: rest
      else it :: incFirst rest pid

/-- The cart-level effect of `GlobalCart.addToCart`: `none` when the
validation `!packId || !packName || isNaN(packPrice)` rejects the input
(no mutation at all); otherwise the mutated cart. -/
def addToCart (cart : List StoredItem) (b : RawButton) : Option (List StoredItem) :=
  match b.packId, b.packName with
  | some pid, some pname =>
      if pid ≠ "" ∧ pname ≠ "" ∧ b.packPrice ≠ .nan then
        if (cart.find? (fun it => it.id = .str pid)).isSome then
          some (incFirst cart pid)
        else
          some (cart ++ [newCartItem pid pname b.packPrice b.packImage b.packSlug])
      else none
  | _, _ => none

/-- The cart-level effect of `GlobalCart.removeFromCart`:
`this.cart.filter(item => item.id !== itemId)`. -/
def removeFromCart (cart : List StoredItem) (itemId : String) : List StoredItem :=
  cart.filter (fun it => !(it.id = .str itemId : Bool))

/-- State of the cart component: the in-memory cart plus the persisted
snapshot (`none` when the storage key is absent). -/
structure CartState where
  cart : List StoredItem
  store : Option (List StoredItem)
deriving DecidableEq, Repr

/-- `GlobalCart.saveCart`: attempts the key-value write; the `catch`
swallows a write failure, leaving the old snapshot in place.  `writeOk`
is the oracle for whether `localStorage.setItem` succeeds. -/
def saveCart (cart : List StoredItem) (store : Option (List StoredItem))
    (writeOk : Bool) : Option (List StoredItem) :=
  if writeOk then some cart else store

/-- `GlobalCart.addToCart` at the state level: on rejection nothing is
touched; on success the in-memory cart is mutated and `saveCart` runs. -/
def addToCartFull (st : CartState) (b : RawButton) (writeOk : Bool) : CartState :=
  match addToCart st.cart b with
  | none => st
  | some c => { cart := c, store := saveCart c st.store writeOk }

/-- `GlobalCart.removeFromCart` at the state level. -/
def removeFromCartFull (st : CartState) (itemId : String) (writeOk : Bool) : CartState :=
  let c := removeFromCart st.cart itemId
  { cart := c, store := saveCart c st.store writeOk }

/-- `GlobalCart.clearCart` at the state level: `this.cart = []` then
`saveCart`. -/
def clearCartFull (st : CartState) (writeOk : Bool) : CartState :=
  { cart := [], store := saveCart [] st.store writeOk }

/-! ### Resilient data loader (`PackLoader`)

A pack is identified by its `id`; `name` stands in for the rest of the
payload so that distinct packs are distinguishable.  The loose equality
`p.id == packId` of the source is modelled as string equality (all ids
in play are strings). -/

structure Pack where
  id : String
  name : String
deriving DecidableEq, Repr

/-- In-memory state of `PackLoader`: the `packs` array and the `loading`
re-entrancy flag. -/
structure LoaderState where
  packs : List Pack
  loading : Bool
deriving DecidableEq, Repr

/-- What a call to `PackLoader.loadPacks` produces: the returned list,
the updated state, and how many network requests were issued. -/
structure LoadResult where
  returned : List Pack
  state : LoaderState
  requests : Nat
deriving DecidableEq, Repr

/-- `PackLoader.loadPacks`.  If `loading` is already set the stored
`packs` are returned immediately with no request.  Otherwise the API is
tried (`api` is the oracle for `loadFromAPI`: an exception or the parsed
list); a non-empty API result is stored and returned; on an API
exception or an empty API result the JSON fallback (`json`, the oracle
for `loadFromJSON`) is tried; if the fallback also throws, the catch
stores and returns the empty list.  The `finally` clears `loading`. -/
def loadPacks (st : LoaderState) (api json : Except Unit (List Pack)) : LoadResult :=
  if st.loading then ⟨st.packs, st, 0⟩
  else
    match api with
    | .ok ps =>
        if ps.length > 0 then ⟨ps, ⟨ps, false⟩, 1⟩
        else
          match json with
          | .ok js => ⟨js, ⟨js, false⟩, 2⟩
          | .error _ => ⟨[], ⟨[], false⟩, 2⟩
    | .error _ =>
        match json with
        | .ok js => ⟨js, ⟨js, false⟩, 2⟩
        | .error _ => ⟨[], ⟨[], false⟩, 2⟩

/-- Outcome of the single-item fetch inside `PackLoader.getPackById`:
the fetch can throw (caught by the surrounding `try`), resolve with a
non-2xx response (`response.ok` false, which merely falls through to the
fallback), or resolve OK with a payload `data.pack || data.data` that
may itself be absent. -/
inductive SingleFetch where
  | netError
  | notOk
  | okResp (payload : Option Pack)
deriving DecidableEq, Repr

/-- `PackLoader.getPackById`: checks the in-memory `packs` first; on a
miss tries the single-item API fetch; a fetch exception is caught and a
non-2xx response falls through, in both cases reaching the fallback
`loadFromJSON()` scan — which is NOT inside any `try`, so a fallback
exception propagates to the caller (`Except.error`). -/
def getPackById (st : LoaderState) (packId : String) (api : SingleFetch)
    (json : Except Unit (List Pack)) : Except Unit (Option Pack) :=
  match st.packs.find? (fun p => p.id = packId) with
  | some p => .ok (some p)
  | none =>
      match api with
      | .okResp payload => .ok payload
      | .netError =>
          match json with
          | .ok allPacks => .ok (allPacks.find? (fun p => p.id = packId))
          | .error e => .error e
      | .notOk =>
          match json with
          | .ok allPacks => .ok (allPacks.find? (fun p => p.id = packId))
          | .error e => .error e

/-! ### Payment orchestrators (`StripePayment`, `CartStripePayment`)

The gateway confirmation call either reports no error, an error with the
special code `payment_intent_unexpected_state`, or any other error; the
backend settlement call (`/payments/confirm` or `/payments/confirm-cart`)
either returns an order or fails with a message (covering both a thrown
fetch and a `success: false` response body). -/

inductive GatewayOutcome where
  | ok
  | errUnexpectedState (msg : String)
  | err (msg : String)
deriving DecidableEq, Repr

structure Order where
  id : String
deriving DecidableEq, Repr

/-- The user-visible terminal outcome of a payment attempt:
`succeeded` (order stored, redirect to the success page), `inlineError`
(`showError` with the given message, the submit control re-enabled by
the `finally`, so the user may retry), `contactSupport` (the cart
flow's terminal settlement-failure message), or `noop` (the call
returned without doing anything). -/
inductive PayResult where
  | succeeded (orderId : String)
  | inlineError (msg : String)
  | contactSupport (msg : String)
  | noop
deriving DecidableEq, Repr

/-- `StripePayment.confirmPaymentWithBackend` as observed by its caller:
settlement success yields the order; a settlement failure rethrows and
is caught by `processPayment`'s catch, which shows the error message
inline (generic, retryable presentation). -/
def settleSingle (backend : Except String Order) : PayResult :=
  match backend with
  | .ok o => .succeeded o.id
  | .error e => .inlineError e

/-- `StripePayment.processPayment`: the `isProcessing` guard returns
immediately; if the pre-check `retrievePaymentIntent` reports the intent
already `succeeded`, settlement runs directly; otherwise the gateway
confirmation runs and an error with code `payment_intent_unexpected_state`
is routed to settlement exactly like a success, while any other gateway
error is thrown and shown inline. -/
def processPayment (isProcessing : Bool) (retrievedSucceeded : Bool)
    (gw : GatewayOutcome) (backend : Except String Order) : PayResult :=
  if isProcessing then .noop
  else if retrievedSucceeded then settleSingle backend
  else
    match gw with
    | .ok => settleSingle backend
    | .errUnexpectedState _ => settleSingle backend
    | .err m => .inlineError m

/-- `CartStripePayment.confirmCartPayment`: settlement success stores
the order, clears the persisted cart and redirects; any failure (thrown
fetch or `success: false`) is caught locally and surfaced as the fixed
contact-support message — it is never rethrown and never retried. -/
def confirmCartPayment (backend : Except String Order) : PayResult :=
  match backend with
  | .ok o => .succeeded o.id
  | .error _ => .contactSupport "Payment confirmation failed. Please contact support."

/-- `CartStripePayment.processCartPayment`: ANY gateway error — the
`payment_intent_unexpected_state` code included, for which this path has
no special case — is shown inline via `showError(error.message)` and the
`finally` re-enables the button; on no error, settlement runs only when
the returned intent status is the literal `succeeded`. -/
def processCartPayment (gw : GatewayOutcome) (intentStatus : String)
    (backend : Except String Order) : PayResult :=
  match gw with
  | .err m => .inlineError m
  | .errUnexpectedState m => .inlineError m
  | .ok =>
      if intentStatus = "succeeded" then confirmCartPayment backend
      else .noop

/-! ### Session manager (`AuthService`)

The persisted session is three key-value entries: the token, the
JSON-stringified user, and the expiry instant (stored as a decimal
string, modelled as the integer it round-trips to).  Times are integer
milliseconds. -/

structure SessionStore where
  token : Option String
  user : Option String
  expiry : Option Int
deriving DecidableEq, Repr

/-- `AuthService.clearSession` removes all three keys. -/
def emptySessionStore : SessionStore :=
  { token := none, user := none, expiry := none }

/-- `AuthService.setSession` at time `now`: stores the token, the user
and an absolute expiry of `now` plus 24 hours in milliseconds. -/
def setSession (now : Int) (token userJson : String) : SessionStore :=
  { token := some token, user := some userJson,
    expiry := some (now + 24 * 60 * 60 * 1000) }

/-- `AuthService.checkExistingSession` at time `now`: if all three
stored values are present and truthy (the stored expiry string is a
nonempty decimal, hence always truthy when present), the session is
valid exactly when `now < tokenExpiry`; an expired session is cleared
(`clearSession`); missing values leave the store untouched.  Returns
(isAuthenticated, resulting store). -/
def checkExistingSession (st : SessionStore) (now : Int) : Bool × SessionStore :=
  match st.token, st.user, st.expiry with
  | some t, some u, some e =>
      if t ≠ "" ∧ u ≠ "" then
        if now < e then (true, st) else (false, emptySessionStore)
      else (false, st)
  | _, _, _ => (false, st)

/-! ## Helper lemmas (shared across the claims) -/

/-- Membership in the cleaned cart is exactly membership of a valid
entry in the raw snapshot. -/
theorem mem_cleanupCorruptedItems (it : StoredItem) (l : List (Option StoredItem)) :
    it ∈ cleanupCorruptedItems l ↔ some it ∈ l ∧ isValidItem (some it) = true := by
  unfold cleanupCorruptedItems
  rw [List.mem_filterMap]
  constructor
  · rintro ⟨a, ha, hfa⟩
    by_cases hv : isValidItem a
    · rw [if_pos hv] at hfa
      subst hfa
      exact ⟨ha, hv⟩
    · rw [if_neg hv] at hfa
      exact absurd hfa (by simp)
  · rintro ⟨hmem, hv⟩
    exact ⟨some it, hmem, by simp [hv]⟩

/-- Cleaning a list of entries that are all already valid is the
identity. -/
theorem cleanup_of_valid (m : List StoredItem)
    (h : ∀ it ∈ m, isValidItem (some it) = true) :
    cleanupCorruptedItems (m.map some) = m := by
  induction m with
  | nil => rfl
  | cons x xs ih =>
      have hx := h x (by simp)
      unfold cleanupCorruptedItems
      rw [List.map_cons, List.filterMap_cons, if_pos hx]
      exact congrArg (x :: ·) (ih (fun it hit => h it (by simp [hit])))

/-- Incrementing the first matching entry of a cart that is split at
that entry. -/
theorem incFirst_append (pre post : List StoredItem) (it : StoredItem) (pid : String)
    (hpre : ∀ x ∈ pre, ¬ x.id = .str pid) (hid : it.id = .str pid) :
    incFirst (pre ++ it :: post) pid =
      pre ++ { it with quantity := qtyPlusOne it.quantity } :: post := by
  induction pre with
  | nil => simp [incFirst, hid]
  | cons y ys ih =>
      have hy := hpre y (by simp)
      simp only [List.cons_append, incFirst, if_neg hy]
      exact congrArg (y :: ·) (ih (fun x hx => hpre x (by simp [hx])))

/-- A cart containing an entry with the sought id makes `find?` succeed. -/
theorem find_id_isSome (pre post : List StoredItem) (it : StoredItem) (pid : String)
    (hid : it.id = .str pid) :
    ((pre ++ it :: post).find? (fun x => x.id = .str pid)).isSome = true := by
  rw [List.find?_isSome]
  exact ⟨it, by simp, by simp [hid]⟩

/-- The cleaned cart, viewed back as snapshot entries, is a sublist of
the raw snapshot: survivors keep their original order and content. -/
theorem cleanup_sublist (l : List (Option StoredItem)) :
    ((cleanupCorruptedItems l).map some).Sublist l := by
  induction l with
  | nil => simp [cleanupCorruptedItems]
  | cons o l ih =>
      unfold cleanupCorruptedItems at *
      rw [List.filterMap_cons]
      by_cases hv : isValidItem o
      · rw [if_pos hv]
        cases o with
        | none => exact absurd hv (by simp [isValidItem])
        | some it => exact List.map_cons some it _ ▸ ih.cons₂ (some it)
      · rw [if_neg hv]
        exact ih.cons o

/-! ## Claim C3: cart persistence round-trip -/

/-- C3 counterexample: the claim says an item with a negative price is
absent after reload, but `cleanupCorruptedItems` only checks
`typeof price === 'number' && !isNaN(price)` — it never compares the
price with zero — so an otherwise well-formed item with price `-5`
survives `loadCart` unchanged. -/
theorem c3_negative_price_kept :
    loadCart (.ok [some ⟨.str "a", .str "axle", .num (.fin (-5)),
        .missing, .missing, some (.fin 1)⟩]) =
      [⟨.str "a", .str "axle", .num (.fin (-5)),
        .missing, .missing, some (.fin 1)⟩] := by
  decide

/-- C3 (amended): loading a persisted cart keeps exactly the entries
that are present, have truthy `id` and `name`, a numeric non-`NaN`
price (a negative price is NOT dropped), and `quantity > 0`; survivors
are unchanged and in their original order; and re-loading the cleaned
sequence yields the same result (idempotence). -/
theorem c3_load_round_trip (l : List (Option StoredItem)) :
    (∀ it : StoredItem, some it ∈ l → isValidItem (some it) = true →
        it ∈ loadCart (.ok l)) ∧
    (∀ it : StoredItem, it ∈ loadCart (.ok l) →
        some it ∈ l ∧ isValidItem (some it) = true) ∧
    ((loadCart (.ok l)).map some).Sublist l ∧
    loadCart (.ok ((loadCart (.ok l)).map some)) = loadCart (.ok l) := by
  refine ⟨?_, ?_, ?_, ?_⟩
  · intro it hmem hv
    exact (mem_cleanupCorruptedItems it l).mpr ⟨hmem, hv⟩
  · intro it hit
    exact (mem_cleanupCorruptedItems it l).mp hit
  · exact cleanup_sublist l
  · exact cleanup_of_valid (cleanupCorruptedItems l)
      (fun it hit => ((mem_cleanupCorruptedItems it l).mp hit).2)

/-- C3 witness: a concrete well-formed item survives reload, and
reloading the cleaned snapshot is a fixed point. -/
theorem c3_load_round_trip_witness :
    (⟨.str "a", .str "axle", .num (.fin 3), .missing, .missing,
        some (.fin 1)⟩ : StoredItem) ∈
      loadCart (.ok [none, some ⟨.str "a", .str "axle", .num (.fin 3),
        .missing, .missing, some (.fin 1)⟩]) ∧
    loadCart (.ok ((loadCart (.ok [none, some ⟨.str "a", .str "axle",
        .num (.fin 3), .missing, .missing, some (.fin 1)⟩])).map some)) =
      loadCart (.ok [none, some ⟨.str "a", .str "axle", .num (.fin 3),
        .missing, .missing, some (.fin 1)⟩]) := by
  constructor
  · exact (c3_load_round_trip _).1 _ (by decide) (by decide)
  · exact (c3_load_round_trip _).2.2.2

/-! ## Claim C6: addItem validation -/

/-- C6 counterexample: the claim says a negative-price item is never
added, but `addToCart` validates only `isNaN(packPrice)` — a price of
`-1` passes and the item is appended to the cart. -/
theorem c6_negative_price_added :
    addToCart [] ⟨some "a", some "Axle", .fin (-1), none, none⟩ =
      some [newCartItem "a" "Axle" (.fin (-1)) none none] := by
  decide

/-- C6 (amended): `addToCart` rejects a raw item whose id or name is
absent or empty or whose price parsed to `NaN`, performing no mutation
of the in-memory cart or the persisted snapshot; but a finite negative
(or infinite) price passes the validation. -/
theorem c6_addToCart_validation (cart : List StoredItem) (st : CartState)
    (b : RawButton) (writeOk : Bool)
    (h : b.packId = none ∨ b.packId = some "" ∨ b.packName = none ∨
         b.packName = some "" ∨ b.packPrice = .nan) :
    addToCart cart b = none ∧ addToCartFull st b writeOk = st := by
  have key : ∀ c : List StoredItem, addToCart c b = none := by
    intro c
    cases hid : b.packId with
    | none => simp [addToCart, hid]
    | some pid =>
        cases hn : b.packName with
        | none => simp [addToCart, hid, hn]
        | some pn =>
            have hbad : ¬(pid ≠ "" ∧ pn ≠ "" ∧ b.packPrice ≠ JSNum.nan) := by
              rintro ⟨h1, h2, h3⟩
              rcases h with h | h | h | h | h <;> simp_all
            simp [addToCart, hid, hn, hbad]
  refine ⟨key cart, ?_⟩
  unfold addToCartFull
  rw [key st.cart]

/-- C6 witness: a raw item with a missing id is rejected and the state
is untouched. -/
theorem c6_addToCart_validation_witness :
    addToCart [] ⟨none, some "Axle", .fin 1, none, none⟩ = none ∧
    addToCartFull ⟨[], none⟩ ⟨none, some "Axle", .fin 1, none, none⟩ true =
      ⟨[], none⟩ :=
  c6_addToCart_validation [] ⟨[], none⟩
    ⟨none, some "Axle", .fin 1, none, none⟩ true (Or.inl rfl)

/-! ## Claim C8: adding an existing id merges quantities -/

/-- C8: adding a valid raw item whose id already occurs in the cart
(split here at its first occurrence) increments that entry's quantity by
1, leaves every other entry untouched and leaves the cart length
unchanged. -/
theorem c8_add_existing_increments (pre post : List StoredItem) (it : StoredItem)
    (pid pname : String) (price : JSNum) (img slg : Option String) (q : ℚ)
    (hpid : pid ≠ "") (hpname : pname ≠ "") (hprice : price ≠ .nan)
    (hpre : ∀ x ∈ pre, ¬ x.id = .str pid) (hid : it.id = .str pid)
    (hq : it.quantity = some (.fin q)) :
    addToCart (pre ++ it :: post) ⟨some pid, some pname, price, img, slg⟩ =
      some (pre ++ { it with quantity := some (.fin (q + 1)) } :: post) ∧
    (pre ++ { it with quantity := some (.fin (q + 1)) } :: post).length =
      (pre ++ it :: post).length := by
  constructor
  · show (if pid ≠ "" ∧ pname ≠ "" ∧ price ≠ .nan then _ else none) = _
    rw [if_pos ⟨hpid, hpname, hprice⟩, if_pos (find_id_isSome pre post it pid hid),
      incFirst_append pre post it pid hpre hid, hq]
    rfl
  · simp

/-- C8 witness: adding the same item id twice to an empty cart yields a
single entry with quantity 2. -/
theorem c8_add_existing_increments_witness :
    addToCart [] ⟨some "a", some "Axle", .fin 10, none, none⟩ =
      some [newCartItem "a" "Axle" (.fin 10) none none] ∧
    addToCart [newCartItem "a" "Axle" (.fin 10) none none]
        ⟨some "a", some "Axle", .fin 10, none, none⟩ =
      some [{ newCartItem "a" "Axle" (.fin 10) none none with
              quantity := some (.fin (1 + 1)) }] := by
  constructor
  · decide
  · exact (c8_add_existing_increments [] [] (newCartItem "a" "Axle" (.fin 10) none none)
      "a" "Axle" (.fin 10) none none 1 (by decide) (by decide) (by decide)
      (by intro x hx; cases hx) rfl rfl).1

/-! ## Claim C10: cart mutations tolerate persistence failure -/

/-- C10: `saveCart` swallows a failed key-value write, so `clearCart`,
`removeFromCart` and `addToCart` always complete; the in-memory cart
reflects the mutation even when the write failed (`writeOk = false`),
and in that case the persisted snapshot is simply left as it was. -/
theorem c10_mutations_tolerate_write_failure (st : CartState) (b : RawButton)
    (itemId : String) :
    (clearCartFull st false).cart = [] ∧
    (clearCartFull st true).cart = [] ∧
    (clearCartFull st false).store = st.store ∧
    (removeFromCartFull st itemId false).cart = removeFromCart st.cart itemId ∧
    (removeFromCartFull st itemId false).store = st.store ∧
    (addToCartFull st b false).cart = (addToCartFull st b true).cart ∧
    (addToCartFull st b false).store = st.store := by
  refine ⟨rfl, rfl, rfl, rfl, rfl, ?_, ?_⟩
  · unfold addToCartFull
    cases addToCart st.cart b <;> rfl
  · unfold addToCartFull
    cases addToCart st.cart b <;> rfl

/-! ## Claim C4: loadPacks API-first with static fallback -/

/-- C4: on a fresh (non-re-entrant) call, `loadPacks` returns the API
result when the API succeeds with a non-empty list; on an API exception
or an empty API result it returns the JSON fallback's contents; and when
the fallback also throws it returns the empty list.  The function is
total, so no exception ever reaches the caller. -/
theorem c4_loadPacks_fallback (st : LoaderState)
    (api json : Except Unit (List Pack)) (h : st.loading = false) :
    (∀ ps, api = .ok ps → ps ≠ [] → (loadPacks st api json).returned = ps) ∧
    ((api = .error () ∨ api = .ok []) →
      ∀ js, json = .ok js → (loadPacks st api json).returned = js) ∧
    ((api = .error () ∨ api = .ok []) → json = .error () →
      (loadPacks st api json).returned = []) := by
  refine ⟨?_, ?_, ?_⟩
  · intro ps hapi hne
    subst hapi
    simp [loadPacks, h, List.length_pos.mpr hne]
  · rintro (hapi | hapi) js hjson <;> subst hapi <;> subst hjson <;>
      simp [loadPacks, h]
  · rintro (hapi | hapi) hjson <;> subst hapi <;> subst hjson <;>
      simp [loadPacks, h]

/-- C4 witness: with the API down and the fallback serving one pack, the
fallback contents are returned; with both down, the empty list. -/
theorem c4_loadPacks_fallback_witness :
    (loadPacks ⟨[], false⟩ (.error ()) (.ok [⟨"p1", "Starter"⟩])).returned =
      [⟨"p1", "Starter"⟩] ∧
    (loadPacks ⟨[], false⟩ (.error ()) (.error ())).returned = [] := by
  constructor
  · exact (c4_loadPacks_fallback ⟨[], false⟩ (.error ()) (.ok [⟨"p1", "Starter"⟩])
      rfl).2.1 (Or.inl rfl) [⟨"p1", "Starter"⟩] rfl
  · exact (c4_loadPacks_fallback ⟨[], false⟩ (.error ()) (.error ())
      rfl).2.2 (Or.inl rfl) rfl

/-! ## Claim C9: loadPacks re-entrancy guard -/

/-- C9: when the `loading` flag is set, `loadPacks` performs no network
request at all and immediately returns the currently stored collection,
leaving the state untouched. -/
theorem c9_loadPacks_reentrant (st : LoaderState)
    (api json : Except Unit (List Pack)) (h : st.loading = true) :
    loadPacks st api json = ⟨st.packs, st, 0⟩ := by
  simp [loadPacks, h]

/-- C9 witness: a re-entrant call with a stale stored collection returns
that collection unchanged with zero requests, whatever the network would
have answered. -/
theorem c9_loadPacks_reentrant_witness :
    loadPacks ⟨[⟨"old", "Stale"⟩], true⟩ (.ok [⟨"new", "Fresh"⟩])
        (.ok [⟨"j", "Json"⟩]) =
      ⟨[⟨"old", "Stale"⟩], ⟨[⟨"old", "Stale"⟩], true⟩, 0⟩ :=
  c9_loadPacks_reentrant ⟨[⟨"old", "Stale"⟩], true⟩ (.ok [⟨"new", "Fresh"⟩])
    (.ok [⟨"j", "Json"⟩]) rfl

/-! ## Claim C5: getPackById lookup chain -/

/-- C5 counterexample: the claim says `getPackById` never throws past
this boundary even when both the API and the fallback fetch fail — but
the fallback `loadFromJSON()` call sits outside every `try`, so when the
in-memory collection misses, the API fetch throws and the fallback fetch
also throws, the exception escapes to the caller. -/
theorem c5_both_fail_throws :
    getPackById ⟨[], false⟩ "x" .netError (.error ()) = .error () := by
  rfl

/-- C5 (amended): `getPackById` checks the in-memory collection first;
on a miss it issues the single-item API fetch and returns its payload
when the response is OK; on a fetch exception or a non-2xx response it
re-loads the fallback snapshot and scans it, returning `none` when the
id is found nowhere — but when that fallback fetch itself fails, the
exception propagates to the caller instead of being swallowed. -/
theorem c5_getPackById_chain (st : LoaderState) (pid : String)
    (api : SingleFetch) (json : Except Unit (List Pack)) :
    (∀ p, st.packs.find? (fun x => x.id = pid) = some p →
        getPackById st pid api json = .ok (some p)) ∧
    (st.packs.find? (fun x => x.id = pid) = none →
      ∀ payload, api = .okResp payload →
        getPackById st pid api json = .ok payload) ∧
    (st.packs.find? (fun x => x.id = pid) = none →
      (api = .netError ∨ api = .notOk) → ∀ js, json = .ok js →
        getPackById st pid api json = .ok (js.find? (fun x => x.id = pid))) ∧
    (st.packs.find? (fun x => x.id = pid) = none →
      (api = .netError ∨ api = .notOk) → json = .error () →
        getPackById st pid api json = .error ()) := by
  refine ⟨?_, ?_, ?_, ?_⟩
  · intro p hfind
    simp [getPackById, hfind]
  · intro hfind payload hapi
    subst hapi
    simp [getPackById, hfind]
  · rintro hfind (hapi | hapi) js hjson <;> subst hapi <;> subst hjson <;>
      simp [getPackById, hfind]
  · rintro hfind (hapi | hapi) hjson <;> subst hapi <;> subst hjson <;>
      simp [getPackById, hfind]

/-- C5 witness: a memory hit answers directly; on a miss with the API
down the fallback snapshot is scanned, and an id absent everywhere
yields `none`. -/
theorem c5_getPackById_chain_witness :
    getPackById ⟨[⟨"x", "Mem"⟩], false⟩ "x" .netError (.error ()) =
      .ok (some ⟨"x", "Mem"⟩) ∧
    getPackById ⟨[], false⟩ "y" .netError (.ok [⟨"x", "Json"⟩]) =
      .ok none := by
  constructor
  · exact (c5_getPackById_chain ⟨[⟨"x", "Mem"⟩], false⟩ "x" .netError
      (.error ())).1 ⟨"x", "Mem"⟩ (by decide)
  · exact (c5_getPackById_chain ⟨[], false⟩ "y" .netError
      (.ok [⟨"x", "Json"⟩])).2.2.1 (by decide) (Or.inl rfl) [⟨"x", "Json"⟩] rfl

/-! ## Claim C1: the benign gateway condition on duplicate confirmation -/

/-- C1 counterexample: on the cart checkout path, a gateway error with
the `payment_intent_unexpected_state` code for an already-confirmed
intent is NOT routed to settlement — `processCartPayment` has no special
case for it and surfaces the gateway message as an inline error, even
though the backend settlement would have succeeded. -/
theorem c1_cart_path_not_special_cased :
    processCartPayment (.errUnexpectedState "intent in unexpected state")
        "succeeded" (.ok ⟨"order-7"⟩) =
      .inlineError "intent in unexpected state" ∧
    processCartPayment (.errUnexpectedState "intent in unexpected state")
        "succeeded" (.ok ⟨"order-7"⟩) ≠
      .succeeded "order-7" := by
  exact ⟨rfl, by decide⟩

/-- C1 (amended): only the single-pack path recognizes the benign
`payment_intent_unexpected_state` condition: there `processPayment`
routes it to backend settlement exactly as it routes a gateway success,
never to the failed state.  The cart path surfaces the same condition as
an inline gateway error instead. -/
theorem c1_unexpected_state_single_path (m : String) (st : String)
    (backend : Except String Order) :
    processPayment false false (.errUnexpectedState m) backend =
      processPayment false false .ok backend ∧
    processPayment false false (.errUnexpectedState m) backend =
      settleSingle backend ∧
    processCartPayment (.errUnexpectedState m) st backend = .inlineError m := by
  refine ⟨rfl, rfl, rfl⟩

/-! ## Claim C2: post-charge settlement failure surfacing -/

/-- C2 counterexample: on the single-pack path a settlement failure
after gateway success is rethrown into `processPayment`'s generic catch,
which shows the raw error message inline and re-enables the submit
control — not the distinct contact-support terminal message the claim
requires of every checkout flow. -/
theorem c2_single_path_generic_error :
    processPayment false false .ok (.error "Failed to confirm payment") =
      .inlineError "Failed to confirm payment" ∧
    processPayment false false .ok (.error "Failed to confirm payment") ≠
      .contactSupport "Payment confirmation failed. Please contact support." := by
  exact ⟨rfl, by decide⟩

/-- C2 (amended): neither path retries settlement automatically, but
only the cart checkout path escalates a post-charge settlement failure
to the fixed contact-support terminal message; the single-pack path
surfaces the same failure through its generic inline (retryable) error
handler. -/
theorem c2_settlement_failure_paths (e : String) :
    processCartPayment .ok "succeeded" (.error e) =
      .contactSupport "Payment confirmation failed. Please contact support." ∧
    processPayment false false .ok (.error e) = .inlineError e := by
  exact ⟨rfl, rfl⟩

/-! ## Claim C7: 24-hour absolute session expiry -/

/-- C7: a session issued at time `T` carries the fixed absolute expiry
`T + 24h`; `checkExistingSession` reports it valid at every instant
strictly before `T + 24h` and invalid at or after it, in which case the
stored session is purged rather than extended. -/
theorem c7_session_expiry (T : Int) (tok userJson : String)
    (htok : tok ≠ "") (huser : userJson ≠ "") (c : Int) :
    ((checkExistingSession (setSession T tok userJson) c).1 = true ↔
      c < T + 86400000) ∧
    (T + 86400000 ≤ c →
      checkExistingSession (setSession T tok userJson) c =
        (false, emptySessionStore)) := by
  have h24 : T + 24 * 60 * 60 * 1000 = T + 86400000 := by norm_num
  constructor
  · simp only [checkExistingSession, setSession, if_pos (And.intro htok huser), h24]
    by_cases hc : c < T + 86400000
    · simp [hc]
    · simp [hc]
  · intro hc
    have hnot : ¬ c < T + 86400000 := not_lt.mpr hc
    simp only [checkExistingSession, setSession, if_pos (And.intro htok huser), h24]
    simp [hnot]

/-- C7 witness: a session issued at time 0 is valid one millisecond
before the 24-hour mark and invalid (and purged) one millisecond after
it. -/
theorem c7_session_expiry_witness :
    (checkExistingSession (setSession 0 "tok" "usr") 86399999).1 = true ∧
    checkExistingSession (setSession 0 "tok" "usr") 86400001 =
      (false, emptySessionStore) := by
  constructor
  · exact (c7_session_expiry 0 "tok" "usr" (by decide) (by decide)
      86399999).1.mpr (by norm_num)
  · exact (c7_session_expiry 0 "tok" "usr" (by decide) (by decide)
      86400001).2 (by norm_num)
